import Mathlib

/-!
Verification of the Mu-Simulation hit-export core: the columnar converters
and the cut filter of `src/tracking.cc`, and the settings builders and the
default NTuple schema of `include/analysis.hh`.

Numeric table values (C++ `double`) are modelled as `ℚ`; integer ids are
`ℤ` and are coerced when pushed into a column.  A `DataEntry` is a
`List ℚ` and a `DataEntryList` is a `List (List ℚ)`; the C++ loops that
push one value per source row into each pre-reserved column are embedded
column-wise as `List.map` over the source rows, which yields the same
column contents in the same order.
-/

namespace MuSim

/-- A 4-vector (`G4LorentzVector`): time/energy component plus 3 spatial
components.  Used for both the hit position (t, x, y, z) and the hit
momentum (e, px, py, pz). -/
structure LorentzVector where
  t : ℚ
  x : ℚ
  y : ℚ
  z : ℚ
  deriving DecidableEq, Repr

/-- Energy component of a momentum 4-vector (`G4LorentzVector::e`). -/
def LorentzVector.e (v : LorentzVector) : ℚ := v.t

/-- x momentum component (`G4LorentzVector::px`). -/
def LorentzVector.px (v : LorentzVector) : ℚ := v.x

/-- y momentum component (`G4LorentzVector::py`). -/
def LorentzVector.py (v : LorentzVector) : ℚ := v.y

/-- z momentum component (`G4LorentzVector::pz`). -/
def LorentzVector.pz (v : LorentzVector) : ℚ := v.z

/-- One detector hit (`Tracking::Hit`): particle pdg code, track id,
parent id, chamber id string, energy deposit, 4-position and 4-momentum
(all already divided by their canonical units at construction). -/
structure Hit where
  pdg : ℤ
  trackID : ℤ
  parentID : ℤ
  chamberID : String
  deposit : ℚ
  position : LorentzVector
  momentum : LorentzVector
  deriving DecidableEq, Repr

/-- A hit collection is the ordered list of hits of one event. -/
abbrev HitCollection := List Hit

/-- One column of the analysis table (`Analysis::ROOT::DataEntry`). -/
abbrev DataEntry := List ℚ

/-- The ordered list of columns (`Analysis::ROOT::DataEntryList`). -/
abbrev DataEntryList := List DataEntry

/-- One name/text settings pair (`Analysis::SimSetting`). -/
structure SimSetting where
  name : String
  text : String
  deriving DecidableEq, Repr

/-- Ordered list of settings pairs (`Analysis::SimSettingList`). -/
abbrev SimSettingList := List SimSetting

/-- `Settings(names, texts)` (the parallel-sequence overload of
`Analysis::Settings`): if the two sequences have unequal length or either
is empty the result is the empty list; otherwise one pair per position,
built by the `AddSetting(out, names[i], texts[i])` loop. -/
def Settings (names texts : List String) : SimSettingList :=
  if names.length ≠ texts.length ∨ names.length = 0 ∨ texts.length = 0 then []
  else List.zipWith SimSetting.mk names texts

/-- `Analysis::IndexedSettings(name, texts, starting_index)`: one pair per
text, named `name + std::to_string(starting_index + i)`. -/
def IndexedSettings (name : String) (texts : List String)
    (startingIndex : ℕ) : SimSettingList :=
  if texts.length = 0 then []
  else (List.range texts.length).map
    (fun i => SimSetting.mk (name ++ toString (startingIndex + i)) (texts.getD i ""))

/-- Column cardinality tag (`Analysis::ROOT::DataKeyType`). -/
inductive DataKeyType where
  | Single
  | Vector
  deriving DecidableEq, Repr

/-- The hit block of the default schema (14 per-hit keys). -/
def hitKeyBlock : List String :=
  ["Hit_energy", "Hit_time", "Hit_detId",
   "Hit_particlePdgId", "Hit_G4TrackId", "Hit_G4ParentTrackId",
   "Hit_x", "Hit_y", "Hit_z",
   "Hit_particleEnergy", "Hit_particlePx", "Hit_particlePy", "Hit_particlePz",
   "Hit_weight"]

/-- The generator-particle block of the default schema (20 keys). -/
def genParticleKeyBlock : List String :=
  ["GenParticle_index", "GenParticle_G4index", "GenParticle_pdgid", "GenParticle_status",
   "GenParticle_time", "GenParticle_x", "GenParticle_y", "GenParticle_z",
   "GenParticle_energy", "GenParticle_px", "GenParticle_py", "GenParticle_pz",
   "GenParticle_mo1", "GenParticle_mo2", "GenParticle_dau1", "GenParticle_dau2",
   "GenParticle_mass", "GenParticle_pt", "GenParticle_eta", "GenParticle_phi"]

/-- The cosmic-ray metadata block of the default schema (11 keys). -/
def cosmicKeyBlock : List String :=
  ["COSMIC_EVENT_ID",
   "COSMIC_CORE_X", "COSMIC_CORE_Y",
   "COSMIC_GEN_PRIMARY_ENERGY", "COSMIC_GEN_THETA", "COSMIC_GEN_PHI",
   "COSMIC_GEN_FIRST_HEIGHT", "COSMIC_GEN_ELECTRON_COUNT", "COSMIC_GEN_MUON_COUNT",
   "COSMIC_GEN_HADRON_COUNT", "COSMIC_GEN_PRIMARY_ID"]

/-- The extension-slot block of the default schema (5 keys). -/
def extraKeyBlock : List String :=
  ["EXTRA_11", "EXTRA_12", "EXTRA_13", "EXTRA_14", "EXTRA_15"]

/-- `Analysis::ROOT::DefaultDataKeyList`: the fixed ordered default schema. -/
def DefaultDataKeyList : List String :=
  ["NumHits",

   "Hit_energy", "Hit_time", "Hit_detId",
   "Hit_particlePdgId", "Hit_G4TrackId", "Hit_G4ParentTrackId",
   "Hit_x", "Hit_y", "Hit_z",
   "Hit_particleEnergy", "Hit_particlePx", "Hit_particlePy", "Hit_particlePz",
   "Hit_weight",

   "NumGenParticles",

   "GenParticle_index", "GenParticle_G4index", "GenParticle_pdgid", "GenParticle_status",
   "GenParticle_time", "GenParticle_x", "GenParticle_y", "GenParticle_z",
   "GenParticle_energy", "GenParticle_px", "GenParticle_py", "GenParticle_pz",
   "GenParticle_mo1", "GenParticle_mo2", "GenParticle_dau1", "GenParticle_dau2",
   "GenParticle_mass", "GenParticle_pt", "GenParticle_eta", "GenParticle_phi",

   "COSMIC_EVENT_ID",

   "COSMIC_CORE_X",
   "COSMIC_CORE_Y",

   "COSMIC_GEN_PRIMARY_ENERGY",
   "COSMIC_GEN_THETA",
   "COSMIC_GEN_PHI",
   "COSMIC_GEN_FIRST_HEIGHT",
   "COSMIC_GEN_ELECTRON_COUNT",
   "COSMIC_GEN_MUON_COUNT",
   "COSMIC_GEN_HADRON_COUNT",
   "COSMIC_GEN_PRIMARY_ID",

   "EXTRA_11", "EXTRA_12", "EXTRA_13", "EXTRA_14", "EXTRA_15"]

/-- `Analysis::ROOT::DefaultDataKeyTypeList`: the matching type tags. -/
def DefaultDataKeyTypeList : List DataKeyType :=
  [DataKeyType.Single,

   DataKeyType.Vector, DataKeyType.Vector, DataKeyType.Vector, DataKeyType.Vector,
   DataKeyType.Vector, DataKeyType.Vector, DataKeyType.Vector, DataKeyType.Vector,
   DataKeyType.Vector, DataKeyType.Vector, DataKeyType.Vector, DataKeyType.Vector,
   DataKeyType.Vector, DataKeyType.Vector,

   DataKeyType.Single,

   DataKeyType.Vector, DataKeyType.Vector, DataKeyType.Vector, DataKeyType.Vector,
   DataKeyType.Vector, DataKeyType.Vector, DataKeyType.Vector, DataKeyType.Vector,
   DataKeyType.Vector, DataKeyType.Vector, DataKeyType.Vector, DataKeyType.Vector,
   DataKeyType.Vector, DataKeyType.Vector, DataKeyType.Vector, DataKeyType.Vector,
   DataKeyType.Vector, DataKeyType.Vector, DataKeyType.Vector, DataKeyType.Vector,

   DataKeyType.Vector, DataKeyType.Vector, DataKeyType.Vector, DataKeyType.Vector,
   DataKeyType.Vector, DataKeyType.Vector, DataKeyType.Vector, DataKeyType.Vector,
   DataKeyType.Vector, DataKeyType.Vector, DataKeyType.Vector, DataKeyType.Vector,
   DataKeyType.Vector, DataKeyType.Vector, DataKeyType.Vector, DataKeyType.Vector]

/-- `_convert_to_analysis(collection, name_map)`: the 14-column hit
conversion.  The C++ loop pushes, for each hit in collection order,
one value into each of the 14 pre-reserved columns; column-wise this is
one `List.map` per column over the hits. -/
def convert_to_analysis (name_map : String → ℚ) (collection : HitCollection) :
    DataEntryList :=
  [collection.map (fun hit => hit.deposit),
   collection.map (fun hit => hit.position.t),
   collection.map (fun hit => name_map hit.chamberID),
   collection.map (fun hit => (hit.pdg : ℚ)),
   collection.map (fun hit => (hit.trackID : ℚ)),
   collection.map (fun hit => (hit.parentID : ℚ)),
   collection.map (fun hit => hit.position.x),
   collection.map (fun hit => hit.position.y),
   collection.map (fun hit => hit.position.z),
   collection.map (fun hit => hit.momentum.e),
   collection.map (fun hit => hit.momentum.px),
   collection.map (fun hit => hit.momentum.py),
   collection.map (fun hit => hit.momentum.pz),
   collection.map (fun _ => (1 : ℚ))]

/-- The candidate test of `_convert_to_cut_analysis`:
`hit->GetMomentum().py() > 0 && hit->GetDeposit() > 0.5 &&
hit->GetPosition().y() > 7000`. -/
def hitQualifies (hit : Hit) : Bool :=
  decide (0 < hit.momentum.py) && decide (mkRat 1 2 < hit.deposit)
    && decide (7000 < hit.position.y)

/-- The inner layer test of `_convert_to_cut_analysis`: the hit's y
position is strictly between `layer_bounds[k][0]` and `layer_bounds[k][1]`.
Layer bounds are modelled as `[min, max]` pairs. -/
def insideLayer (layer_bounds : List (ℚ × ℚ)) (hit : Hit) (k : ℕ) : Bool :=
  decide ((layer_bounds.getD k (0, 0)).1 < hit.position.y)
    && decide (hit.position.y < (layer_bounds.getD k (0, 0)).2)

/-- The layer indices recorded for one qualifying hit: the inner
`for k` loop over all bound intervals, in index order. -/
def hitLayers (layer_bounds : List (ℚ × ℚ)) (hit : Hit) : List ℕ :=
  (List.range layer_bounds.length).filter (fun k => insideLayer layer_bounds hit k)

/-- The `tracker_layers` vector built by the outer hit loop of
`_convert_to_cut_analysis`: for each hit in collection order, if the hit
passes the candidate test, push every layer index whose bounds strictly
contain the hit's y position. -/
def trackerLayers (layer_bounds : List (ℚ × ℚ)) : HitCollection → List ℕ
  | [] => []
  | hit :: rest =>
      (if hitQualifies hit then hitLayers layer_bounds hit else [])
        ++ trackerLayers layer_bounds rest

/-- `std::unique` on an already-sorted list: drop an element equal to the
element preceding it (`prev`). -/
def eraseAdjDupsFrom (prev : ℕ) : List ℕ → List ℕ
  | [] => []
  | b :: rest =>
      if prev = b then eraseAdjDupsFrom prev rest
      else b :: eraseAdjDupsFrom b rest

/-- `std::unique` over a whole list: keep the head, then drop adjacent
duplicates. -/
def eraseAdjDups : List ℕ → List ℕ
  | [] => []
  | a :: rest => a :: eraseAdjDupsFrom a rest

/-- The `std::sort; std::unique; erase` sequence of
`_convert_to_cut_analysis` that makes `tracker_layers` unique. -/
def sortUnique (l : List ℕ) : List ℕ :=
  eraseAdjDups (l.insertionSort (· ≤ ·))

/-- `_convert_to_cut_analysis(collection, layer_bounds, name_map)`: build
`tracker_layers`, sort and deduplicate it, and fill the 14 columns with the
whole collection only when at least 3 distinct layers were reached;
otherwise the 14 pre-reserved columns stay empty. -/
def convert_to_cut_analysis (name_map : String → ℚ) (collection : HitCollection)
    (layer_bounds : List (ℚ × ℚ)) : DataEntryList :=
  if 3 ≤ (sortUnique (trackerLayers layer_bounds collection)).length then
    [collection.map (fun hit => hit.deposit),
     collection.map (fun hit => hit.position.t),
     collection.map (fun hit => name_map hit.chamberID),
     collection.map (fun hit => (hit.pdg : ℚ)),
     collection.map (fun hit => (hit.trackID : ℚ)),
     collection.map (fun hit => (hit.parentID : ℚ)),
     collection.map (fun hit => hit.position.x),
     collection.map (fun hit => hit.position.y),
     collection.map (fun hit => hit.position.z),
     collection.map (fun hit => hit.momentum.e),
     collection.map (fun hit => hit.momentum.px),
     collection.map (fun hit => hit.momentum.py),
     collection.map (fun hit => hit.momentum.pz),
     collection.map (fun _ => (1 : ℚ))]
  else
    List.replicate 14 ([] : DataEntry)

/-- The set described by the spec's cut algorithm: the distinct interval
indices `k` reached by some hit that passes the candidate test and whose y
position lies strictly inside `layer_bounds[k]`. -/
def cutLayerSet (layer_bounds : List (ℚ × ℚ)) (collection : HitCollection) :
    Finset ℕ :=
  (Finset.range layer_bounds.length).filter
    (fun k => collection.any (fun hit => hitQualifies hit && insideLayer layer_bounds hit k) = true)

/-- `ConvertToAnalysis(collection, layer_bounds, savecut)`: dispatch to the
cut conversion when `savecut` is set, and to the plain 14-column
conversion otherwise.  The chamber name map (`std::stold` in the source)
is the same on both paths and is kept as a parameter, mirroring the
`NameMap` template parameter of the two workers. -/
def ConvertToAnalysisCut (name_map : String → ℚ) (collection : HitCollection)
    (layer_bounds : List (ℚ × ℚ)) (savecut : Bool) : DataEntryList :=
  if savecut then convert_to_cut_analysis name_map collection layer_bounds
  else convert_to_analysis name_map collection

/-- The chamber mapping of the map-based overload
`ConvertToAnalysis(collection, map)`: look the chamber id up in the
name→number map and return its value, or −1 when absent. -/
def mapNameMap (map : List (String × ℚ)) : String → ℚ :=
  fun id => match map.lookup id with
    | some v => v
    | none => -1

/-- `ConvertToAnalysis(collection, map)`: the 14-column conversion with the
absent-lookup-is-−1 chamber mapping. -/
def ConvertToAnalysisMap (map : List (String × ℚ)) (collection : HitCollection) :
    DataEntryList :=
  convert_to_analysis (mapNameMap map) collection

/-- Modelled from the spec: the `Physics::GenParticle` record is declared
in `physics/Particle.hh`, which is not part of the sources here; its
fields are taken from the spec's data model and from the field accesses in
`ConvertToAnalysis(particles, saveall)` — index, transported-track-link
index (`G4index`), pdg code, status, vertex 4-vector, momentum 4-vector,
two mother indices, two daughter indices, mass. -/
structure GenParticle where
  index : ℤ
  G4index : ℤ
  pdgid : ℤ
  status : ℤ
  vertex : LorentzVector
  mom : LorentzVector
  moid1 : ℤ
  moid2 : ℤ
  dau1 : ℤ
  dau2 : ℤ
  m : ℚ
  deriving DecidableEq, Repr

/-- Ordered generator-particle list (`Physics::GenParticleVector`). -/
abbrev GenParticleVector := List GenParticle

/-- `ConvertToAnalysis(particles, saveall)`: pre-filter `pvec` keeps a
particle when `saveall || particle.G4index >= 0`, then 20 columns are
filled, one value per kept particle.  The kinematic derivations
`mom.pT()`, `mom.eta()`, `mom.phi()` live in the absent
`physics/Particle.hh`; modelled from the spec as abstract functions of the
momentum 4-vector, passed as parameters. -/
def ConvertToAnalysisGen (pT eta phi : LorentzVector → ℚ) (saveall : Bool)
    (particles : GenParticleVector) : DataEntryList :=
  let pvec := particles.filter (fun p => saveall || decide (0 ≤ p.G4index))
  [pvec.map (fun p => (p.index : ℚ)),
   pvec.map (fun p => (p.G4index : ℚ)),
   pvec.map (fun p => (p.pdgid : ℚ)),
   pvec.map (fun p => (p.status : ℚ)),
   pvec.map (fun p => p.vertex.e),
   pvec.map (fun p => p.vertex.px),
   pvec.map (fun p => p.vertex.py),
   pvec.map (fun p => p.vertex.pz),
   pvec.map (fun p => p.mom.e),
   pvec.map (fun p => p.mom.px),
   pvec.map (fun p => p.mom.py),
   pvec.map (fun p => p.mom.pz),
   pvec.map (fun p => (p.moid1 : ℚ)),
   pvec.map (fun p => (p.moid2 : ℚ)),
   pvec.map (fun p => (p.dau1 : ℚ)),
   pvec.map (fun p => (p.dau2 : ℚ)),
   pvec.map (fun p => p.m),
   pvec.map (fun p => pT p.mom),
   pvec.map (fun p => eta p.mom),
   pvec.map (fun p => phi p.mom)]

/-- `ConvertToAnalysis(extra)`: 16 columns, column `i` copied element by
element from `extra[i]`.  The C++ indexes `extra[0] .. extra[15]`
unchecked, so inputs with fewer than 16 columns are outside the
precondition; `getD` with an empty default stands in for the in-range
accesses the precondition guarantees. -/
def ConvertToAnalysisExtra (extra : List (List ℚ)) : DataEntryList :=
  (List.range 16).map (fun i => (extra.getD i []).map (fun v => v))

/-- The expected row layout of the 14-column hit conversion, used to state
the row-wise correctness of `convert_to_analysis`. -/
def hitRow (name_map : String → ℚ) (hit : Hit) : List ℚ :=
  [hit.deposit, hit.position.t, name_map hit.chamberID, (hit.pdg : ℚ),
   (hit.trackID : ℚ), (hit.parentID : ℚ), hit.position.x, hit.position.y,
   hit.position.z, hit.momentum.e, hit.momentum.px, hit.momentum.py,
   hit.momentum.pz, 1]

/-- The expected row layout of the 20-column generator-particle
conversion. -/
def genRow (pT eta phi : LorentzVector → ℚ) (p : GenParticle) : List ℚ :=
  [(p.index : ℚ), (p.G4index : ℚ), (p.pdgid : ℚ), (p.status : ℚ),
   p.vertex.e, p.vertex.px, p.vertex.py, p.vertex.pz,
   p.mom.e, p.mom.px, p.mom.py, p.mom.pz,
   (p.moid1 : ℚ), (p.moid2 : ℚ), (p.dau1 : ℚ), (p.dau2 : ℚ),
   p.m, pT p.mom, eta p.mom, phi p.mom]

/-- A concrete test hit: deposit 1 (> 0.5), momentum py 1 (> 0), position
y as given.  Used for the concrete cut-filter scenarios. -/
def qualHit (y : ℚ) : Hit :=
  { pdg := 13, trackID := 1, parentID := 0, chamberID := "11"
    deposit := 1, position := ⟨0, 0, y, 0⟩, momentum := ⟨1, 0, 1, 0⟩ }

/-- The layer bounds of the spec's cut-filter example. -/
def exampleBoundsLow : List (ℚ × ℚ) := [(0, 10), (10, 20), (20, 30)]

/-- Layer bounds shifted above the cut filter's 7000 y threshold. -/
def exampleBoundsHigh : List (ℚ × ℚ) :=
  [(7000, 7010), (7010, 7020), (7020, 7030)]

/-- A trivial chamber name map for the concrete scenarios. -/
def constNameMap : String → ℚ := fun _ => 0

/-- A test hit with a given chamber id, for the name-map lookups. -/
def namedHit (chamber : String) : Hit :=
  { qualHit 0 with chamberID := chamber }

lemma mem_of_mem_eraseAdjDupsFrom {x p : ℕ} :
    ∀ {l : List ℕ}, x ∈ eraseAdjDupsFrom p l → x ∈ l := by
  intro l
  induction l generalizing p with
  | nil => simp [eraseAdjDupsFrom]
  | cons b rest ih =>
    by_cases hpb : p = b
    · intro hx
      exact List.mem_cons_of_mem b (ih (by simpa [eraseAdjDupsFrom, hpb] using hx))
    · intro hx
      rw [eraseAdjDupsFrom, if_neg hpb] at hx
      rcases List.mem_cons.mp hx with h | h
      · exact h ▸ List.mem_cons_self b rest
      · exact List.mem_cons_of_mem b (ih h)

lemma mem_eraseAdjDupsFrom_of_mem {x p : ℕ} :
    ∀ {l : List ℕ}, x ∈ l → x ∈ eraseAdjDupsFrom p l ∨ x = p := by
  intro l
  induction l generalizing p with
  | nil => simp
  | cons b rest ih =>
    intro hx
    by_cases hpb : p = b
    · rw [eraseAdjDupsFrom, if_pos hpb]
      rcases List.mem_cons.mp hx with h | h
      · exact Or.inr (h.trans hpb.symm)
      · exact ih h
    · rw [eraseAdjDupsFrom, if_neg hpb]
      rcases List.mem_cons.mp hx with h | h
      · exact Or.inl (h ▸ List.mem_cons_self b _)
      · rcases ih (p := b) h with h' | h'
        · exact Or.inl (List.mem_cons_of_mem b h')
        · exact Or.inl (h' ▸ List.mem_cons_self b _)

lemma mem_eraseAdjDups {x : ℕ} : ∀ {l : List ℕ}, x ∈ eraseAdjDups l ↔ x ∈ l := by
  intro l
  cases l with
  | nil => simp [eraseAdjDups]
  | cons a rest =>
    rw [eraseAdjDups]
    constructor
    · intro hx
      rcases List.mem_cons.mp hx with h | h
      · exact h ▸ List.mem_cons_self a rest
      · exact List.mem_cons_of_mem a (mem_of_mem_eraseAdjDupsFrom h)
    · intro hx
      rcases List.mem_cons.mp hx with h | h
      · exact h ▸ List.mem_cons_self a _
      · rcases mem_eraseAdjDupsFrom_of_mem (p := a) h with h' | h'
        · exact List.mem_cons_of_mem a h'
        · exact h' ▸ List.mem_cons_self a _

lemma eraseAdjDupsFrom_sorted {p : ℕ} :
    ∀ {l : List ℕ}, l.Sorted (· ≤ ·) → (∀ x ∈ l, p ≤ x) →
      (eraseAdjDupsFrom p l).Nodup ∧ ∀ x ∈ eraseAdjDupsFrom p l, p < x := by
  intro l
  induction l generalizing p with
  | nil => simp [eraseAdjDupsFrom]
  | cons b rest ih =>
    intro hs hp
    rw [List.sorted_cons] at hs
    obtain ⟨hble, hrest⟩ := hs
    have hpb : p ≤ b := hp b (List.mem_cons_self b rest)
    by_cases heq : p = b
    · rw [eraseAdjDupsFrom, if_pos heq]
      exact ih hrest (fun x hx => heq ▸ hble x hx)
    · rw [eraseAdjDupsFrom, if_neg heq]
      obtain ⟨ihn, ihlt⟩ := ih (p := b) hrest hble
      have hplt : p < b := lt_of_le_of_ne hpb heq
      constructor
      · exact List.nodup_cons.mpr ⟨fun hmem => absurd rfl (ne_of_gt (ihlt b hmem)), ihn⟩
      · intro x hx
        rcases List.mem_cons.mp hx with h | h
        · exact h ▸ hplt
        · exact hplt.trans (ihlt x h)

lemma eraseAdjDups_nodup : ∀ {l : List ℕ}, l.Sorted (· ≤ ·) → (eraseAdjDups l).Nodup := by
  intro l
  cases l with
  | nil => simp [eraseAdjDups]
  | cons a rest =>
    intro hs
    rw [List.sorted_cons] at hs
    obtain ⟨hale, hrest⟩ := hs
    obtain ⟨hn, hlt⟩ := eraseAdjDupsFrom_sorted (p := a) hrest hale
    rw [eraseAdjDups]
    exact List.nodup_cons.mpr ⟨fun hmem => absurd rfl (ne_of_gt (hlt a hmem)), hn⟩

/-- The `sort` + `unique` + `erase` sequence leaves one element per
distinct value: its length is the number of distinct recorded layers. -/
lemma sortUnique_length (l : List ℕ) : (sortUnique l).length = l.toFinset.card := by
  have hperm : List.Perm (l.insertionSort (· ≤ ·)) l := List.perm_insertionSort _ l
  have hsort : (l.insertionSort (· ≤ ·)).Sorted (· ≤ ·) := List.sorted_insertionSort _ l
  have hnd : (eraseAdjDups (l.insertionSort (· ≤ ·))).Nodup := eraseAdjDups_nodup hsort
  have hset : (eraseAdjDups (l.insertionSort (· ≤ ·))).toFinset = l.toFinset := by
    rw [← List.toFinset_eq_of_perm _ _ hperm]
    ext x
    simp [List.mem_toFinset, mem_eraseAdjDups]
  rw [sortUnique, ← List.toFinset_card_of_nodup hnd, hset]

lemma mem_trackerLayers {k : ℕ} (layer_bounds : List (ℚ × ℚ)) :
    ∀ {collection : HitCollection},
      k ∈ trackerLayers layer_bounds collection
        ↔ ∃ hit ∈ collection, hitQualifies hit = true ∧ k ∈ hitLayers layer_bounds hit := by
  intro collection
  induction collection with
  | nil => simp [trackerLayers]
  | cons hit rest ih =>
    rw [trackerLayers, List.mem_append, ih]
    by_cases hq : hitQualifies hit = true <;> simp [hq]

/-- The distinct layers recorded by the code's `tracker_layers` loop are
exactly the indices described by the spec's candidate/interval test. -/
lemma trackerLayers_toFinset (layer_bounds : List (ℚ × ℚ)) (collection : HitCollection) :
    (trackerLayers layer_bounds collection).toFinset = cutLayerSet layer_bounds collection := by
  ext k
  rw [List.mem_toFinset, mem_trackerLayers]
  simp only [cutLayerSet, Finset.mem_filter, Finset.mem_range, List.any_eq_true,
    Bool.and_eq_true, hitLayers, List.mem_filter, List.mem_range]
  constructor
  · rintro ⟨hit, hmem, hq, hk, hin⟩
    exact ⟨hk, hit, hmem, hq, hin⟩
  · rintro ⟨hk, hit, hmem, hq, hin⟩
    exact ⟨hit, hmem, hq, hk, hin⟩

lemma cut_layer_count (layer_bounds : List (ℚ × ℚ)) (collection : HitCollection) :
    (sortUnique (trackerLayers layer_bounds collection)).length
      = (cutLayerSet layer_bounds collection).card := by
  rw [sortUnique_length, trackerLayers_toFinset]

/-- Acceptance case of the cut conversion: at least 3 distinct layers
reached means the full 14-column conversion is produced. -/
lemma cut_accept (name_map : String → ℚ) (collection : HitCollection)
    (layer_bounds : List (ℚ × ℚ))
    (h : 3 ≤ (cutLayerSet layer_bounds collection).card) :
    convert_to_cut_analysis name_map collection layer_bounds
      = convert_to_analysis name_map collection := by
  rw [convert_to_cut_analysis, if_pos (by rw [cut_layer_count]; exact h)]
  rfl

/-- Rejection case of the cut conversion: fewer than 3 distinct layers
means the 14 pre-reserved columns stay empty. -/
lemma cut_reject (name_map : String → ℚ) (collection : HitCollection)
    (layer_bounds : List (ℚ × ℚ))
    (h : (cutLayerSet layer_bounds collection).card < 3) :
    convert_to_cut_analysis name_map collection layer_bounds
      = List.replicate 14 ([] : DataEntry) := by
  rw [convert_to_cut_analysis, if_neg (by rw [cut_layer_count]; omega)]

lemma getD_map_get {α β : Type} (f : α → β) (d : β) :
    ∀ (l : List α) (i : ℕ) (h : i < l.length),
      (l.map f).getD i d = f (l.get ⟨i, h⟩) := by
  intro l
  induction l with
  | nil => intro i h; simp at h
  | cons a t ih =>
    intro i h
    cases i with
    | zero => simp
    | succ n => simpa using ih n (by simpa using h)

lemma getD_zipWith_get {α β γ : Type} (f : α → β → γ) (d : γ) :
    ∀ (l1 : List α) (l2 : List β) (i : ℕ) (h1 : i < l1.length) (h2 : i < l2.length),
      (List.zipWith f l1 l2).getD i d = f (l1.get ⟨i, h1⟩) (l2.get ⟨i, h2⟩) := by
  intro l1
  induction l1 with
  | nil => intro l2 i h1; simp at h1
  | cons a t ih =>
    intro l2 i h1 h2
    cases l2 with
    | nil => simp at h2
    | cons b u =>
      cases i with
      | zero => simp
      | succ n => simpa using ih u n (by simpa using h1) (by simpa using h2)

lemma getD_take {α : Type} (d : α) :
    ∀ (l : List α) (n i : ℕ), i < n → (l.take n).getD i d = l.getD i d := by
  intro l
  induction l with
  | nil => intro n i _; simp
  | cons a t ih =>
    intro n i hin
    cases n with
    | zero => omega
    | succ m =>
      cases i with
      | zero => simp
      | succ j => simpa using ih m j (by omega)

/-- C1: for every hit collection and ordered list of [min, max] layer
bound intervals, the cut conversion computes the set of distinct interval
indices reached by some hit with momentum-py > 0, deposit > 0.5 and
position-y > 7000 whose y lies strictly inside the interval; with at
least 3 distinct indices the output is the full 14-column conversion of
the entire collection (one row per hit, in collection order), and
otherwise all 14 columns are empty. -/
theorem cut_conversion_correct (name_map : String → ℚ) (collection : HitCollection)
    (layer_bounds : List (ℚ × ℚ)) :
    (3 ≤ (cutLayerSet layer_bounds collection).card →
      convert_to_cut_analysis name_map collection layer_bounds
        = convert_to_analysis name_map collection)
    ∧ ((cutLayerSet layer_bounds collection).card < 3 →
      convert_to_cut_analysis name_map collection layer_bounds
        = List.replicate 14 ([] : DataEntry)) :=
  ⟨cut_accept name_map collection layer_bounds,
   cut_reject name_map collection layer_bounds⟩

/-- Witness for C1: three qualifying hits spread over the three
high layers are fully exported; two qualifying hits are not. -/
theorem cut_conversion_correct_witness :
    (3 ≤ (cutLayerSet exampleBoundsHigh [qualHit 7001, qualHit 7011, qualHit 7021]).card
      ∧ convert_to_cut_analysis constNameMap [qualHit 7001, qualHit 7011, qualHit 7021]
          exampleBoundsHigh
        = convert_to_analysis constNameMap [qualHit 7001, qualHit 7011, qualHit 7021])
    ∧ ((cutLayerSet exampleBoundsHigh [qualHit 7001, qualHit 7011]).card < 3
      ∧ convert_to_cut_analysis constNameMap [qualHit 7001, qualHit 7011] exampleBoundsHigh
        = List.replicate 14 ([] : DataEntry)) :=
  ⟨⟨by decide,
    (cut_conversion_correct constNameMap [qualHit 7001, qualHit 7011, qualHit 7021]
      exampleBoundsHigh).1 (by decide)⟩,
   ⟨by decide,
    (cut_conversion_correct constNameMap [qualHit 7001, qualHit 7011]
      exampleBoundsHigh).2 (by decide)⟩⟩

/-- C2 counterexample: with the spec's layer bounds
`[[0,10],[10,20],[20,30]]`, hits at y = 5, 15 and 25 (deposit 1 > 0.5,
py 1 > 0) cover all three bounds, yet the cut filter still returns the
empty table and not the full collection: no hit inside these bounds can
pass the y > 7000 candidate test (witnessed by the third conjunct), so
the claimed scenario of qualifying hits inside these bounds is
unsatisfiable and adding the third in-bound hit does not cause export. -/
theorem cut_example_counterexample :
    ConvertToAnalysisCut constNameMap [qualHit 5, qualHit 15, qualHit 25]
        exampleBoundsLow true
      = List.replicate 14 ([] : DataEntry)
    ∧ ConvertToAnalysisCut constNameMap [qualHit 5, qualHit 15, qualHit 25]
        exampleBoundsLow true
      ≠ convert_to_analysis constNameMap [qualHit 5, qualHit 15, qualHit 25]
    ∧ hitQualifies (qualHit 25) = false :=
  ⟨by decide, by decide, by decide⟩

/-- C2 amended: with layer bounds lying above the 7000 y threshold,
`[[7000,7010],[7010,7020],[7020,7030]]`, qualifying hits at y = 7005 and
7015 reach exactly two bounds and the cut filter returns the empty table;
adding a third qualifying hit at y = 7025 (a new bound) causes the full
collection to be exported. -/
theorem cut_example_amended :
    cutLayerSet exampleBoundsHigh [qualHit 7005, qualHit 7015] = {0, 1}
    ∧ ConvertToAnalysisCut constNameMap [qualHit 7005, qualHit 7015]
        exampleBoundsHigh true
      = List.replicate 14 ([] : DataEntry)
    ∧ cutLayerSet exampleBoundsHigh [qualHit 7005, qualHit 7015, qualHit 7025] = {0, 1, 2}
    ∧ ConvertToAnalysisCut constNameMap [qualHit 7005, qualHit 7015, qualHit 7025]
        exampleBoundsHigh true
      = convert_to_analysis constNameMap [qualHit 7005, qualHit 7015, qualHit 7025]
    ∧ hitQualifies (qualHit 7005) = true
    ∧ hitQualifies (qualHit 7015) = true
    ∧ hitQualifies (qualHit 7025) = true :=
  ⟨by decide, by decide, by decide, by decide, by decide, by decide, by decide⟩

/-- C3: the 14-column hit conversion returns exactly 14 columns, each of
the collection's length, and row i holds, in column order: deposit,
position time, chamber-numeric via the caller-supplied mapping, pdg code,
track id, parent id, position x, y, z, momentum e, px, py, pz and the
constant 1. -/
theorem hit_conversion_layout (name_map : String → ℚ) (collection : HitCollection)
    (i : ℕ) :
    (convert_to_analysis name_map collection).length = 14
    ∧ (∀ col ∈ convert_to_analysis name_map collection, col.length = collection.length)
    ∧ ∀ (h : i < collection.length),
        (convert_to_analysis name_map collection).map (fun col => col.getD i 0)
          = hitRow name_map (collection.get ⟨i, h⟩) := by
  refine ⟨by simp [convert_to_analysis], ?_, ?_⟩
  · intro col hcol
    simp only [convert_to_analysis, List.mem_cons, List.not_mem_nil, or_false] at hcol
    rcases hcol with rfl | rfl | rfl | rfl | rfl | rfl | rfl | rfl | rfl | rfl | rfl
      | rfl | rfl | rfl <;> simp
  · intro h
    simp only [convert_to_analysis, List.map_cons, List.map_nil, hitRow,
      getD_map_get _ _ _ _ h]

/-- Witness for C3: the single-hit collection and its row. -/
theorem hit_conversion_layout_witness :
    (0 : ℕ) < ([qualHit 7001] : HitCollection).length
    ∧ (convert_to_analysis constNameMap [qualHit 7001]).map (fun col => col.getD 0 0)
        = hitRow constNameMap (qualHit 7001) :=
  ⟨by decide,
   (hit_conversion_layout constNameMap [qualHit 7001] 0).2.2 (by decide)⟩

/-- C4: the 20-column GenParticle conversion with saveall = false keeps
exactly the particles with non-negative transported-track-link index, in
input order; with saveall = true it keeps every particle; each row holds,
in column order: index, link index, pdg code, status, vertex e/px/py/pz,
momentum e/px/py/pz, mother1, mother2, daughter1, daughter2, mass, and
the transverse momentum, pseudorapidity and azimuth derived from the
momentum 4-vector. -/
theorem genparticle_conversion_layout (pT eta phi : LorentzVector → ℚ)
    (particles : GenParticleVector) (i : ℕ) :
    (ConvertToAnalysisGen pT eta phi false particles).length = 20
    ∧ (∀ col ∈ ConvertToAnalysisGen pT eta phi false particles,
        col.length = (particles.filter (fun p => decide (0 ≤ p.G4index))).length)
    ∧ (∀ (h : i < (particles.filter (fun p => decide (0 ≤ p.G4index))).length),
        (ConvertToAnalysisGen pT eta phi false particles).map (fun col => col.getD i 0)
          = genRow pT eta phi
              ((particles.filter (fun p => decide (0 ≤ p.G4index))).get ⟨i, h⟩))
    ∧ (ConvertToAnalysisGen pT eta phi true particles).length = 20
    ∧ (∀ col ∈ ConvertToAnalysisGen pT eta phi true particles,
        col.length = particles.length)
    ∧ (∀ (h : i < particles.length),
        (ConvertToAnalysisGen pT eta phi true particles).map (fun col => col.getD i 0)
          = genRow pT eta phi (particles.get ⟨i, h⟩)) := by
  have hfalse : particles.filter (fun p => (false || decide (0 ≤ p.G4index)))
      = particles.filter (fun p => decide (0 ≤ p.G4index)) := by
    simp
  have htrue : particles.filter (fun p => (true || decide (0 ≤ p.G4index))) = particles := by
    simp
  refine ⟨by simp [ConvertToAnalysisGen], ?_, ?_, by simp [ConvertToAnalysisGen], ?_, ?_⟩
  · intro col hcol
    simp only [ConvertToAnalysisGen, hfalse, List.mem_cons, List.not_mem_nil, or_false]
      at hcol
    rcases hcol with rfl | rfl | rfl | rfl | rfl | rfl | rfl | rfl | rfl | rfl | rfl
      | rfl | rfl | rfl | rfl | rfl | rfl | rfl | rfl | rfl <;> simp
  · intro h
    simp only [ConvertToAnalysisGen, hfalse, List.map_cons, List.map_nil, genRow,
      getD_map_get _ _ _ _ h]
  · intro col hcol
    simp only [ConvertToAnalysisGen, htrue, List.mem_cons, List.not_mem_nil, or_false]
      at hcol
    rcases hcol with rfl | rfl | rfl | rfl | rfl | rfl | rfl | rfl | rfl | rfl | rfl
      | rfl | rfl | rfl | rfl | rfl | rfl | rfl | rfl | rfl <;> simp
  · intro h
    simp only [ConvertToAnalysisGen, htrue, List.map_cons, List.map_nil, genRow,
      getD_map_get _ _ _ _ h]

/-- Witness for C4: of two particles with link indices −1 and 0, only the
second appears with saveall = false, and row 0 is its 20-value row. -/
theorem genparticle_conversion_layout_witness :
    (0 : ℕ) < (([⟨0, -1, 11, 1, ⟨0, 0, 0, 0⟩, ⟨1, 2, 3, 4⟩, 0, 0, 0, 0, 5⟩,
        ⟨1, 0, 13, 1, ⟨0, 0, 0, 0⟩, ⟨5, 6, 7, 8⟩, 0, 0, 0, 0, 9⟩] :
          GenParticleVector).filter (fun p => decide (0 ≤ p.G4index))).length
    ∧ (ConvertToAnalysisGen (fun v => v.x) (fun v => v.y) (fun v => v.z) false
          [⟨0, -1, 11, 1, ⟨0, 0, 0, 0⟩, ⟨1, 2, 3, 4⟩, 0, 0, 0, 0, 5⟩,
           ⟨1, 0, 13, 1, ⟨0, 0, 0, 0⟩, ⟨5, 6, 7, 8⟩, 0, 0, 0, 0, 9⟩]).map
        (fun col => col.getD 0 0)
      = genRow (fun v => v.x) (fun v => v.y) (fun v => v.z)
          ⟨1, 0, 13, 1, ⟨0, 0, 0, 0⟩, ⟨5, 6, 7, 8⟩, 0, 0, 0, 0, 9⟩ := by
  refine ⟨by decide, ?_⟩
  have h := (genparticle_conversion_layout (fun v => v.x) (fun v => v.y) (fun v => v.z)
    [⟨0, -1, 11, 1, ⟨0, 0, 0, 0⟩, ⟨1, 2, 3, 4⟩, 0, 0, 0, 0, 5⟩,
     ⟨1, 0, 13, 1, ⟨0, 0, 0, 0⟩, ⟨5, 6, 7, 8⟩, 0, 0, 0, 0, 9⟩] 0).2.2.1 (by decide)
  exact h

/-- C5: the cut entry point with savecut = false returns exactly the plain
14-column conversion, and with savecut = true it also returns the plain
conversion of the whole collection whenever at least 3 distinct layers
are reached — every hit is exported, not only those that passed the
candidate or layer tests. -/
theorem cut_entry_refines_plain (name_map : String → ℚ) (collection : HitCollection)
    (layer_bounds : List (ℚ × ℚ)) :
    ConvertToAnalysisCut name_map collection layer_bounds false
      = convert_to_analysis name_map collection
    ∧ (3 ≤ (cutLayerSet layer_bounds collection).card →
        ConvertToAnalysisCut name_map collection layer_bounds true
          = convert_to_analysis name_map collection) :=
  ⟨rfl, fun h => cut_accept name_map collection layer_bounds h⟩

/-- Witness for C5: a collection reaching three distinct layers is
exported in full through the savecut = true path. -/
theorem cut_entry_refines_plain_witness :
    ConvertToAnalysisCut constNameMap [qualHit 7003] exampleBoundsHigh false
      = convert_to_analysis constNameMap [qualHit 7003]
    ∧ 3 ≤ (cutLayerSet exampleBoundsHigh [qualHit 7003, qualHit 7013, qualHit 7023]).card
    ∧ ConvertToAnalysisCut constNameMap [qualHit 7003, qualHit 7013, qualHit 7023]
        exampleBoundsHigh true
      = convert_to_analysis constNameMap [qualHit 7003, qualHit 7013, qualHit 7023] :=
  ⟨(cut_entry_refines_plain constNameMap [qualHit 7003] exampleBoundsHigh).1,
   by decide,
   (cut_entry_refines_plain constNameMap [qualHit 7003, qualHit 7013, qualHit 7023]
     exampleBoundsHigh).2 (by decide)⟩

/-- C6: in the map-based hit conversion, the chamber-numeric column holds
the map's value when the chamber id is present and −1 when it is absent —
an ordinary return value, not an error; in particular, with map
{"Layer1": 1.0} and a hit with chamber id "Layer2" the chamber column
holds −1. -/
theorem chamber_map_lookup (map : List (String × ℚ)) (collection : HitCollection)
    (i : ℕ) (hc : Hit) :
    (∀ (h : i < collection.length) (v : ℚ),
        map.lookup (collection.get ⟨i, h⟩).chamberID = some v →
        ((ConvertToAnalysisMap map collection).getD 2 []).getD i 0 = v)
    ∧ (∀ (h : i < collection.length),
        map.lookup (collection.get ⟨i, h⟩).chamberID = none →
        ((ConvertToAnalysisMap map collection).getD 2 []).getD i 0 = -1)
    ∧ (hc.chamberID = "Layer2" →
        ((ConvertToAnalysisMap [("Layer1", 1)] [hc]).getD 2 []).getD 0 0 = -1) := by
  have hcol : (ConvertToAnalysisMap map collection).getD 2 []
      = collection.map (fun hit => mapNameMap map hit.chamberID) := rfl
  refine ⟨?_, ?_, ?_⟩
  · intro h v hv
    rw [hcol, getD_map_get _ _ _ _ h, mapNameMap, hv]
  · intro h hv
    rw [hcol, getD_map_get _ _ _ _ h, mapNameMap, hv]
  · intro hid
    show mapNameMap [("Layer1", 1)] hc.chamberID = -1
    rw [hid]
    decide

/-- Witness for C6: present lookup returns the mapped value, absent
lookup returns −1, and the spec's "Layer2" example returns −1. -/
theorem chamber_map_lookup_witness :
    (0 : ℕ) < ([namedHit "Layer1"] : HitCollection).length
    ∧ ((ConvertToAnalysisMap [("Layer1", 1)] [namedHit "Layer1"]).getD 2 []).getD 0 0 = 1
    ∧ ((ConvertToAnalysisMap [("Layer1", 1)] [namedHit "Other"]).getD 2 []).getD 0 0 = -1
    ∧ ((ConvertToAnalysisMap [("Layer1", 1)] [namedHit "Layer2"]).getD 2 []).getD 0 0 = -1 :=
  ⟨by decide,
   (chamber_map_lookup [("Layer1", 1)] [namedHit "Layer1"] 0 (namedHit "Layer1")).1
     (by decide) 1 (by decide),
   (chamber_map_lookup [("Layer1", 1)] [namedHit "Other"] 0 (namedHit "Other")).2.1
     (by decide) (by decide),
   (chamber_map_lookup [("Layer1", 1)] [namedHit "Layer2"] 0 (namedHit "Layer2")).2.2
     (by decide)⟩

/-- C7: the parallel-sequence Settings builder returns the empty list,
raising no error, whenever the two sequences have unequal lengths or
either is empty — in particular for names = ["A"], texts = [] — and
otherwise returns one name/text pair per position, in sequence order. -/
theorem settings_parallel_lists (names texts : List String) :
    ((names.length ≠ texts.length ∨ names = [] ∨ texts = []) →
      Settings names texts = [])
    ∧ Settings ["A"] [] = []
    ∧ (names.length = texts.length → names ≠ [] →
        (Settings names texts).length = names.length
        ∧ ∀ (i : ℕ) (h1 : i < names.length) (h2 : i < texts.length),
            (Settings names texts).getD i ⟨"", ""⟩
              = ⟨names.get ⟨i, h1⟩, texts.get ⟨i, h2⟩⟩) := by
  refine ⟨?_, by decide, ?_⟩
  · intro hcond
    rw [Settings, if_pos]
    rcases hcond with h | h | h
    · exact Or.inl h
    · exact Or.inr (Or.inl (by simp [h]))
    · exact Or.inr (Or.inr (by simp [h]))
  · intro hlen hne
    have hcond : ¬(names.length ≠ texts.length ∨ names.length = 0 ∨ texts.length = 0) := by
      push_neg
      refine ⟨by simpa using hlen, ?_, ?_⟩
      · simpa [List.length_eq_zero] using hne
      · rw [← hlen]
        simpa [List.length_eq_zero] using hne
    rw [Settings, if_neg hcond]
    refine ⟨by simp [List.length_zipWith, hlen], ?_⟩
    intro i h1 h2
    exact getD_zipWith_get SimSetting.mk _ names texts i h1 h2

/-- Witness for C7: the degenerate ["A"] / [] case is the empty list, and
equal-length non-empty sequences pair up position-wise. -/
theorem settings_parallel_lists_witness :
    (["A"].length ≠ ([] : List String).length ∨ (["A"] : List String) = [] ∨
      ([] : List String) = [])
    ∧ Settings ["A"] [] = []
    ∧ (Settings ["A", "B"] ["1", "2"]).length = 2
    ∧ (Settings ["A", "B"] ["1", "2"]).getD 1 ⟨"", ""⟩ = ⟨"B", "2"⟩ :=
  ⟨Or.inl (by decide),
   (settings_parallel_lists ["A"] []).1 (Or.inl (by decide)),
   by simpa using ((settings_parallel_lists ["A", "B"] ["1", "2"]).2.2
     (by decide) (by decide)).1,
   by simpa using ((settings_parallel_lists ["A", "B"] ["1", "2"]).2.2
     (by decide) (by decide)).2 1 (by decide) (by decide)⟩

/-- C8: IndexedSettings returns one entry per text, in order, named by the
base name concatenated with the decimal rendering of
starting index + position; in particular IndexedSettings "X" ["a","b"] 3
yields [("X3","a"), ("X4","b")]. -/
theorem indexed_settings_layout (name : String) (texts : List String)
    (startingIndex i : ℕ) :
    (texts ≠ [] →
      (IndexedSettings name texts startingIndex).length = texts.length
      ∧ ∀ (h : i < texts.length),
          (IndexedSettings name texts startingIndex).getD i ⟨"", ""⟩
            = ⟨name ++ toString (startingIndex + i), texts.get ⟨i, h⟩⟩)
    ∧ IndexedSettings "X" ["a", "b"] 3 = [⟨"X3", "a"⟩, ⟨"X4", "b"⟩] := by
  refine ⟨?_, by decide⟩
  intro hne
  rw [IndexedSettings, if_neg (by simpa [List.length_eq_zero] using hne)]
  refine ⟨by simp, ?_⟩
  intro h
  rw [getD_map_get _ _ _ i (by simpa using h)]
  simp [List.getD_eq_getElem?_getD, List.getElem?_eq_getElem h]

/-- Witness for C8: the spec's concrete example, via the general layout. -/
theorem indexed_settings_layout_witness :
    (["a", "b"] : List String) ≠ []
    ∧ (IndexedSettings "X" ["a", "b"] 3).length = 2
    ∧ (IndexedSettings "X" ["a", "b"] 3).getD 1 ⟨"", ""⟩ = ⟨"X" ++ toString (3 + 1), "b"⟩ :=
  ⟨by decide,
   by simpa using ((indexed_settings_layout "X" ["a", "b"] 3 1).1 (by decide)).1,
   ((indexed_settings_layout "X" ["a", "b"] 3 1).1 (by decide)).2 (by decide)⟩

/-- C9: the default schema is a fixed ordered list of exactly 52 keys,
the type-tag list has the same length, and the keys are the hit block,
generator-particle block, cosmic-ray block and extension slots in that
fixed order. -/
theorem default_schema_shape :
    DefaultDataKeyList.length = 52
    ∧ DefaultDataKeyTypeList.length = DefaultDataKeyList.length
    ∧ DefaultDataKeyList
        = ["NumHits"] ++ hitKeyBlock ++ ["NumGenParticles"] ++ genParticleKeyBlock
            ++ cosmicKeyBlock ++ extraKeyBlock :=
  ⟨rfl, rfl, rfl⟩

/-- C10: for inputs with at least 16 columns, the extra-block conversion
returns exactly 16 columns, column i copied verbatim from input column i,
and ignores any columns beyond index 15 (it depends only on the first 16
input columns); no alignment across columns is required or imposed. -/
theorem extra_conversion_verbatim (extra : List (List ℚ)) :
    (ConvertToAnalysisExtra extra).length = 16
    ∧ (16 ≤ extra.length → ∀ i : ℕ, i < 16 →
        (ConvertToAnalysisExtra extra).getD i [] = extra.getD i [])
    ∧ ConvertToAnalysisExtra extra = ConvertToAnalysisExtra (extra.take 16) := by
  refine ⟨by simp [ConvertToAnalysisExtra], ?_, ?_⟩
  · intro _ i hi
    rw [ConvertToAnalysisExtra, getD_map_get _ _ _ i (by simpa using hi)]
    simp
  · rw [ConvertToAnalysisExtra, ConvertToAnalysisExtra]
    refine List.map_congr_left ?_
    intro i hi
    rw [getD_take _ extra 16 i (by simpa using hi)]

/-- Witness for C10: a 16-column input (with heterogeneous column
lengths) is copied verbatim, column 15 included. -/
theorem extra_conversion_verbatim_witness :
    16 ≤ ([[1], [2], [3], [4], [5], [6], [7], [8], [9], [10], [11], [12], [13], [14],
      [15], [16, 17]] : List (List ℚ)).length
    ∧ (15 : ℕ) < 16
    ∧ (ConvertToAnalysisExtra
        [[1], [2], [3], [4], [5], [6], [7], [8], [9], [10], [11], [12], [13], [14],
         [15], [16, 17]]).getD 15 []
      = ([[1], [2], [3], [4], [5], [6], [7], [8], [9], [10], [11], [12], [13], [14],
         [15], [16, 17]] : List (List ℚ)).getD 15 [] :=
  ⟨by decide, by decide,
   (extra_conversion_verbatim
     [[1], [2], [3], [4], [5], [6], [7], [8], [9], [10], [11], [12], [13], [14],
      [15], [16, 17]]).2.1 (by decide) 15 (by decide)⟩

end MuSim
